import Mathlib

/-!
Verification development for the LINE account-provisioning automation.

The definitions below are shallow embeddings of the Python source:
`core/sheets_client.py`, `core/line_automation.py`,
`core/automation_runner.py`, `core/session_manager.py` and the
challenge-gate callback in `app.py`.  Python strings are modelled as
Lean `String`/`List Char`; machine behaviour that the code observes
through the browser or the control surface is made explicit as
environment records.
-/

/-! ## Python string helpers (ASCII-faithful models of str methods) -/

/-- Characters removed by Python's `str.strip()` (ASCII whitespace). -/
def isSpaceChar (c : Char) : Bool :=
  c = ' ' || c = '\t' || c = '\n' || c = '\r' || c = '\x0b' || c = '\x0c'

/-- Model of Python `str.strip()` on the right side only. -/
def pyStripRight (cs : List Char) : List Char :=
  (cs.reverse.dropWhile isSpaceChar).reverse

/-- Model of Python `str.strip()`. -/
def pyStrip (cs : List Char) : List Char :=
  pyStripRight (cs.dropWhile isSpaceChar)

/-- Model of Python `str.strip()` at `String` type. -/
def pyStripStr (s : String) : String :=
  String.mk (pyStrip s.data)

/-- ASCII uppercasing of one character, as Python `str.upper()` does on ASCII. -/
def pyUpperChar (c : Char) : Char :=
  if 'a' ≤ c ∧ c ≤ 'z' then Char.ofNat (c.toNat - 32) else c

/-- Model of Python `str.upper()` (character-wise; faithful on ASCII). -/
def pyUpperStr (s : String) : String :=
  String.mk (s.data.map pyUpperChar)

/-- `pat in s` substring test, as Python's `in` on strings. -/
def strContains (s pat : String) : Bool :=
  (List.range (s.data.length + 1)).any
    (fun i => (s.data.drop i).take pat.data.length == pat.data)

/-- Python `s[:-n]`: all but the last `n` characters (empty when `n ≥ len`). -/
def dropLastN (cs : List Char) (n : Nat) : List Char :=
  cs.take (cs.length - n)

/-- `cs.endswith pat` as a list-of-characters test. -/
def endsWithList (cs pat : List Char) : Bool :=
  decide (pat.length ≤ cs.length) && (cs.drop (cs.length - pat.length) == pat)

/-! ## config/settings.py -/

/-- `MAX_ACCOUNTS` from `config/settings.py`. -/
def MAX_ACCOUNTS : Nat := 100

/-- `HEADER_ROWS` from `config/settings.py`. -/
def HEADER_ROWS : Nat := 2

/-- `ENABLED_VALUES` from `config/settings.py`. -/
def ENABLED_VALUES : List String := ["TRUE", "1", "はい", "YES", "有効"]

/-! ## core/sheets_client.py -/

/-- `AccountRow` dataclass from `sheets_client.py`. -/
structure AccountRow where
  row_number : Nat
  enabled : Bool
  line_name : String
  icon_image_url : String
  basic_id : String
  access_token : String
  permission_link : String
  friend_link : String
  business_account : String
deriving DecidableEq

/-- The per-field column-letter configuration dictionary built by
`AutomationRunner.get_column_config`. -/
structure ColumnConfig where
  col_enabled : String
  col_line_name : String
  col_icon_image : String
  col_basic_id : String
  col_access_token : String
  col_permission_link : String
  col_friend_link : String
  col_business_account : String
deriving DecidableEq

/-- `SheetsClient._col_letter_to_index`: base-26 spreadsheet column letters to
0-based index; `""` and the sentinel `"-"` map to `-1`. -/
def _col_letter_to_index (letter : String) : Int :=
  if letter = "" ∨ letter = "-" then -1
  else (letter.data.foldl (fun r c => r * 26 + (((pyUpperChar c).toNat : Int) - 65 + 1)) 0) - 1

/-- `SheetsClient._get_cell_value`: bounds-checked, stripped cell read. -/
def _get_cell_value (row : List String) (colIdx : Int) : String :=
  if colIdx < 0 ∨ (row.length : Int) ≤ colIdx then ""
  else pyStripStr (row.getD colIdx.toNat "")

/-- The enabled-row test of `SheetsClient.get_enabled_rows`: the enabled
column must be mapped and in range, and the cell, stripped and uppercased,
must be one of `ENABLED_VALUES`. -/
def rowIsEnabled (cc : ColumnConfig) (row : List String) : Bool :=
  let idx := _col_letter_to_index cc.col_enabled
  if idx < 0 ∨ (row.length : Int) ≤ idx then false
  else ENABLED_VALUES.contains (pyUpperStr (pyStripStr (row.getD idx.toNat "")))

/-- Construction of one `AccountRow` from a sheet row inside
`get_enabled_rows`. -/
def mkAccountRow (cc : ColumnConfig) (rowNum : Nat) (row : List String) : AccountRow :=
  { row_number := rowNum
    enabled := true
    line_name := _get_cell_value row (_col_letter_to_index cc.col_line_name)
    icon_image_url := _get_cell_value row (_col_letter_to_index cc.col_icon_image)
    basic_id := _get_cell_value row (_col_letter_to_index cc.col_basic_id)
    access_token := _get_cell_value row (_col_letter_to_index cc.col_access_token)
    permission_link := _get_cell_value row (_col_letter_to_index cc.col_permission_link)
    friend_link := _get_cell_value row (_col_letter_to_index cc.col_friend_link)
    business_account := _get_cell_value row (_col_letter_to_index cc.col_business_account) }

/-- The data-row loop of `get_enabled_rows`: `count` rows already collected,
`rowNum` the 1-based sheet row number of the head row. -/
def enabledLoopAux (cc : ColumnConfig) : List (List String) → Nat → Nat → List AccountRow
  | [], _, _ => []
  | row :: rest, rowNum, count =>
    if MAX_ACCOUNTS ≤ count then []
    else if rowIsEnabled cc row then
      mkAccountRow cc rowNum row :: enabledLoopAux cc rest (rowNum + 1) (count + 1)
    else enabledLoopAux cc rest (rowNum + 1) count

/-- `SheetsClient.get_enabled_rows` over the full cell matrix. -/
def get_enabled_rows (cc : ColumnConfig) (all_values : List (List String)) : List AccountRow :=
  if all_values.length < HEADER_ROWS + 1 then []
  else enabledLoopAux cc (all_values.drop HEADER_ROWS) (HEADER_ROWS + 1) 0

/-! ## core/line_automation.py — data model and helpers -/

/-- `AutomationResult` dataclass from `line_automation.py`. -/
structure AutomationResult where
  row_number : Nat
  success : Bool
  basic_id : String := ""
  permission_link : String := ""
  friend_link : String := ""
  access_token : String := ""
  error_message : String := ""
deriving DecidableEq

/-- `[a-zA-Z0-9]` of the basic-id regex. -/
def isAlnumChar (c : Char) : Bool :=
  c.isAlpha || c.isDigit

/-- Whether the list starts with an alphanumeric character. -/
def headAlnum : List Char → Bool
  | [] => false
  | r :: _ => isAlnumChar r

/-- Leftmost-greedy search for `(@[a-zA-Z0-9]+)`, as `re.search` does in
`_extract_basic_id`. -/
def scanBasicId : List Char → List Char
  | [] => []
  | c :: rest =>
    if c == '@' && headAlnum rest then
      '@' :: rest.takeWhile isAlnumChar
    else scanBasicId rest

/-- `LineAutomation._extract_basic_id`: first `@`-prefixed alphanumeric run in
the URL, `""` when absent. -/
def extract_basic_id (url : String) : String :=
  String.mk (scanBasicId url.data)

/-! ## core/line_automation.py — access-token text scan (`_get_access_token`) -/

/-- The base64-safe character class `[a-zA-Z0-9+/=]` of the token regex. -/
def isTokenChar (c : Char) : Bool :=
  ('a' ≤ c && c ≤ 'z') || ('A' ≤ c && c ≤ 'Z') || ('0' ≤ c && c ≤ '9') ||
  c = '+' || c = '/' || c = '='

/-- The per-node text normalisation in `_get_access_token`: `strip()`, then
removal of one trailing `"Reissue"` (7 chars) or `"再発行"` (3 chars) button
label, then `strip()` again. -/
def stripTokenText (text : List Char) : List Char :=
  let t := pyStrip text
  if endsWithList t "Reissue".data then pyStrip (dropLastN t 7)
  else if endsWithList t "再発行".data then pyStrip (dropLastN t 3)
  else t

/-- Python `re.match(r'^[a-zA-Z0-9+/=]+$', s)` as a Bool: one or more token
characters spanning the whole string, where `$` also matches just before one
final newline. -/
def reMatchTokenFull (cs : List Char) : Bool :=
  let body := if cs.getLast? = some '\n' then cs.dropLast else cs
  !body.isEmpty && body.all isTokenChar

/-- The acceptance test applied to each scanned text node in
`_get_access_token`: length over 100, no space, full token-regex match —
all on the normalised text. -/
def acceptsToken (raw : List Char) : Bool :=
  let t := stripTokenText raw
  decide (100 < t.length) && !(t.contains ' ') && reMatchTokenFull t

/-- The document-order scan loop of `_get_access_token` (strategy 1): first
text node whose normalised text passes `acceptsToken` yields that normalised
text. -/
def findTokenText : List (List Char) → Option (List Char)
  | [] => none
  | raw :: rest =>
    let t := stripTokenText raw
    if decide (100 < t.length) && !(t.contains ' ') && reMatchTokenFull t then some t
    else findTokenText rest

/-- The final token value of `_get_access_token`: strategy-1 scan result,
falling back to the `div.copyable` content attribute (strategy 2), with the
final `strip()` applied to a non-empty result. -/
def get_access_token_scan (texts : List (List Char)) (copyableAttr : Option (List Char)) :
    List Char :=
  let tok :=
    match findTokenText texts with
    | some t => t
    | none =>
      match copyableAttr with
      | some a => a
      | none => []
  if tok.isEmpty then tok else pyStrip tok

/-! ## core/line_automation.py — per-record workflow (`create_account`) -/

/-- The phases of the per-record workflow, in source order. -/
inductive Phase
  | creating
  | iconUpdating
  | capabilityEnabling
  | permissionGranting
  | linkObtaining
  | credentialExtracting
deriving DecidableEq

/-- Environment of one `create_account` run: what the browser would answer at
each point the workflow observes it.  `creationError` is `some msg` when one
of the steps before the basic-id extraction raises; `pageUrl` is the URL read
after the post-creation reload; the remaining fields are the values produced
by the non-fatal phases (empty on their internal failure, exactly as the
source returns `""`). -/
structure WorkflowEnv where
  creationError : Option String
  pageUrl : String
  permissionLink : String
  friendLink : String
  accessToken : String
deriving DecidableEq

/-- `LineAutomation.create_account`, returning the `AutomationResult` together
with the list of phases the run entered.  All steps up to the basic-id
extraction sit in one `try`; an exception there yields `success := false`
with the message.  After extraction the icon, capability, permission, link
and credential phases each swallow their own errors, so the run always ends
with `success := true` and whatever slot values the environment produced. -/
def create_account (env : WorkflowEnv) (account : AccountRow) (image_path : String) :
    AutomationResult × List Phase :=
  match env.creationError with
  | some msg =>
    ({ row_number := account.row_number, success := false, error_message := msg },
     [Phase.creating])
  | none =>
    ({ row_number := account.row_number
       success := true
       basic_id := extract_basic_id env.pageUrl
       permission_link := env.permissionLink
       friend_link := env.friendLink
       access_token := env.accessToken },
     [Phase.creating]
       ++ (if image_path ≠ "" then [Phase.iconUpdating] else [])
       ++ [Phase.capabilityEnabling, Phase.permissionGranting,
           Phase.linkObtaining, Phase.credentialExtracting])

/-! ## core/line_automation.py — write-back (`process_account`) -/

/-- One `update_cell(row, col_letter, value)` call issued to the sheet. -/
structure CellUpdate where
  row : Nat
  col : String
  value : String
deriving DecidableEq

/-- The write-back block of `LineAutomation.process_account`: on success, one
cell update per non-empty output slot whose configured column is not the
literal `"-"`, plus the owning business account (the login email) whenever
its column is not `"-"`, in source order. -/
def writeBackUpdates (email : String) (rowNumber : Nat) (result : AutomationResult)
    (cc : ColumnConfig) : List CellUpdate :=
  if result.success then
    (if result.basic_id ≠ "" ∧ cc.col_basic_id ≠ "-" then
      [{ row := rowNumber, col := cc.col_basic_id, value := result.basic_id }] else [])
    ++ (if result.permission_link ≠ "" ∧ cc.col_permission_link ≠ "-" then
      [{ row := rowNumber, col := cc.col_permission_link, value := result.permission_link }] else [])
    ++ (if result.friend_link ≠ "" ∧ cc.col_friend_link ≠ "-" then
      [{ row := rowNumber, col := cc.col_friend_link, value := result.friend_link }] else [])
    ++ (if result.access_token ≠ "" ∧ cc.col_access_token ≠ "-" then
      [{ row := rowNumber, col := cc.col_access_token, value := result.access_token }] else [])
    ++ (if cc.col_business_account ≠ "-" then
      [{ row := rowNumber, col := cc.col_business_account, value := email }] else [])
  else []

/-- `LineAutomation.process_account`: run `create_account`, then issue the
write-back updates for its result. -/
def process_account (env : WorkflowEnv) (account : AccountRow) (image_path : String)
    (cc : ColumnConfig) (email : String) : AutomationResult × List CellUpdate :=
  let r := (create_account env account image_path).1
  (r, writeBackUpdates email account.row_number r cc)

/-! ## core/automation_runner.py — configuration -/

/-- `RunnerConfig` dataclass from `automation_runner.py`, with its source
defaults (every column field defaults to `""`). -/
structure RunnerConfig where
  email : String
  password : String
  sheet_url : String
  sheet_name : String
  icon_save_path : String
  headless : Bool := false
  biz_manager_enabled : Bool := false
  biz_manager_name : String := ""
  col_enabled : String := ""
  col_line_name : String := ""
  col_icon_image : String := ""
  col_basic_id : String := ""
  col_access_token : String := ""
  col_permission_link : String := ""
  col_friend_link : String := ""
  col_business_account : String := ""
deriving DecidableEq

/-- `AutomationRunner.get_column_config`. -/
def get_column_config (c : RunnerConfig) : ColumnConfig :=
  { col_enabled := c.col_enabled
    col_line_name := c.col_line_name
    col_icon_image := c.col_icon_image
    col_basic_id := c.col_basic_id
    col_access_token := c.col_access_token
    col_permission_link := c.col_permission_link
    col_friend_link := c.col_friend_link
    col_business_account := c.col_business_account }

/-! ## core/automation_runner.py — the per-record run loop

The worker reads the two control flags `should_stop` and `is_paused` at
discrete suspension points: the check at the top of each record's iteration,
the `while is_paused` test, and the `should_stop` test after each 1-second
pause sleep.  `sched t` gives the flag pair `(should_stop, is_paused)` the
worker observes at its `t`-th flag read; the control context may change the
flags between any two reads. -/

/-- The pause-wait loop of `AutomationRunner.run`
(`while is_paused: sleep(1); if should_stop: break`).  Returns the tick of
the next flag read after the loop exits; `none` models a pause that is never
lifted within `fuel` polls. -/
def pauseWait (sched : Nat → Bool × Bool) : Nat → Nat → Option Nat
  | 0, t => if (sched t).2 then none else some (t + 1)
  | fuel + 1, t =>
    if (sched t).2 then
      if (sched (t + 1)).1 then some (t + 2)
      else pauseWait sched fuel (t + 2)
    else some (t + 1)

/-- The record loop of `AutomationRunner.run`: at each record, check
`should_stop` (break), run the pause-wait, then unconditionally process the
record and append its result.  `proc` is the per-record workflow
(`process_account`), total because the workflow converts its own failures
into a result. -/
def runLoop (proc : AccountRow → AutomationResult) (sched : Nat → Bool × Bool)
    (fuel : Nat) : List AccountRow → Nat → List AutomationResult
  | [], _ => []
  | account :: rest, t =>
    if (sched t).1 then []
    else
      match pauseWait sched fuel (t + 1) with
      | none => []
      | some t' => proc account :: runLoop proc sched fuel rest t'

/-! ## core/line_automation.py / core/session_manager.py — login -/

/-- Environment of one `login()` call: whether a session artifact exists
(`SessionManager.has_session`), whether `load_session` returns usable data,
whether applying cookies / navigating raises, the URL observed after
navigating to the manager home, and whether the interactive credential login
would reach the manager surface. -/
structure LoginEnv where
  hasSession : Bool
  loadOk : Bool
  restoreExc : Bool
  restoreUrl : String
  credOk : Bool
deriving DecidableEq

/-- Observable effects of one `login()` call. -/
structure LoginTrace where
  success : Bool
  interactiveAttempts : Nat
  clears : Nat
  saves : Nat
deriving DecidableEq

/-- The authenticated-surface test of `_try_restore_session`:
`'manager.line.biz' in current_url and 'login' not in current_url`. -/
def onManagerSurface (url : String) : Bool :=
  strContains url "manager.line.biz" && !(strContains url "login")

/-- `LineAutomation._try_restore_session`: `(restored, clear_session calls)`.
No artifact or unusable data → plain failure; an exception while restoring →
failure without clearing; a non-manager or login URL → `clear_session()` and
failure; otherwise success. -/
def try_restore_session (env : LoginEnv) : Bool × Nat :=
  if !env.hasSession then (false, 0)
  else if !env.loadOk then (false, 0)
  else if env.restoreExc then (false, 0)
  else if onManagerSurface env.restoreUrl then (true, 0)
  else (false, 1)

/-- `LineAutomation.login`: try the session restore; on restore success
return immediately (no interactive login, no save), otherwise run
`_login_with_credentials` exactly once, which saves a fresh artifact only
when it succeeds. -/
def login (env : LoginEnv) : LoginTrace :=
  let r := try_restore_session env
  if r.1 then
    { success := true, interactiveAttempts := 0, clears := r.2, saves := 0 }
  else
    { success := env.credOk, interactiveAttempts := 1, clears := r.2,
      saves := if env.credOk then 1 else 0 }

/-! ## app.py — challenge gate (`captcha_callback` / `_on_captcha_required`)

The worker polls the `threading.Event` every 0.5 s; ticks are poll instants.
A resolution signal delivered at tick `s` means the event reads `true` from
the `s`-th poll on. -/

/-- The poll loop `while not event.is_set(): await asyncio.sleep(0.5)`:
first tick `≥ t` at which `flag` reads true, with bounded fuel standing in
for the unbounded loop. -/
def pollWait (flag : Nat → Bool) : Nat → Nat → Option Nat
  | 0, _ => none
  | fuel + 1, t => if flag t then some t else pollWait flag fuel (t + 1)

/-- The event flag produced by a resolution signal set at tick `s` and not
yet cleared. -/
def eventFrom (s : Nat) : Nat → Bool :=
  fun t => decide (s ≤ t)

/-- `captcha_callback` in `app.py`: poll the event until set, then
`event.clear()`.  Returns the unblock tick and the event state after the
trailing `clear()`. -/
def captcha_callback (flag : Nat → Bool) (fuel t0 : Nat) : Option (Nat × Bool) :=
  match pollWait flag fuel t0 with
  | none => none
  | some u => some (u, false)

/-! ## Shared concrete inputs and helper lemmas -/

/-- A sample sheet record used in concrete instances. -/
def sampleAccount (n : Nat) : AccountRow :=
  { row_number := n, enabled := true, line_name := "", icon_image_url := "",
    basic_id := "", access_token := "", permission_link := "", friend_link := "",
    business_account := "" }

/-- A stub per-record workflow (always succeeds) used in run-loop instances. -/
def stubProcess (a : AccountRow) : AutomationResult :=
  { row_number := a.row_number, success := true }

/-- Control schedule of the C1 scenario: not stopped at the first record's
top-of-loop check (tick 0), paused at the pause-loop test (tick 1), and
`stop()` has been received by the in-pause stop check (tick 2), which also
lifts the pause. -/
def c1Sched : Nat → Bool × Bool :=
  fun t => (decide (2 ≤ t), decide (t = 1))

/-- The token shape stated by the spec, as its own definition: after the
button-label/whitespace normalisation, the remaining string must have length
greater than 100, contain no space character, and consist only of the
characters `a-z`, `A-Z`, `0-9`, `+`, `/`, `=`.  Compared below with the
acceptance test transcribed from the source. -/
def specTokenCheck (t : List Char) : Bool :=
  decide (100 < t.length) && !(t.contains ' ') && t.all isTokenChar

/-- The strategy-2 fallback value of `_get_access_token`: the
`div.copyable` content attribute when present, with the final `strip()`
applied to a non-empty value. -/
def fallbackToken : Option (List Char) → List Char
  | some a => if a.isEmpty then a else pyStrip a
  | none => []

theorem mem_ite_singleton {α : Type} {c : Prop} [Decidable c] {u v : α}
    (h : u ∈ (if c then [v] else [])) : c ∧ u = v := by
  split at h
  · exact ⟨by assumption, List.mem_singleton.mp h⟩
  · simp at h

/-- C1: with the pause set before record 1 and `stop()` delivered during the
pause-wait (schedule `c1Sched`), the run loop still processes record 1 and
appends its result; only the records after it are skipped.  This evaluates
the embedded loop at the failing input of the claim, which demands that
record 1 never start. -/
theorem c1_stop_during_pause_still_runs_record :
    c1Sched 0 = (false, false) ∧
    c1Sched 1 = (false, true) ∧
    c1Sched 2 = (true, false) ∧
    runLoop stubProcess c1Sched 5 [sampleAccount 3, sampleAccount 4] 0
      = [stubProcess (sampleAccount 3)] := by
  decide

/-- C2 counterexample: a post-creation URL with no `@identifier` does not
stop the workflow at the Creating phase: the result has `success = true`
and an empty error message, and the credential-extraction phase still
runs — the claim demands `success = false`, a non-empty error, and no
later phase. -/
theorem c2_counterexample_no_identifier_still_success :
    extract_basic_id "https://manager.line.biz/account/settings" = "" ∧
    (create_account
        { creationError := none, pageUrl := "https://manager.line.biz/account/settings",
          permissionLink := "", friendLink := "", accessToken := "" }
        (sampleAccount 3) "").1.success = true ∧
    (create_account
        { creationError := none, pageUrl := "https://manager.line.biz/account/settings",
          permissionLink := "", friendLink := "", accessToken := "" }
        (sampleAccount 3) "").1.error_message = "" ∧
    Phase.credentialExtracting ∈
      (create_account
        { creationError := none, pageUrl := "https://manager.line.biz/account/settings",
          permissionLink := "", friendLink := "", accessToken := "" }
        (sampleAccount 3) "").2 := by
  decide

/-- C2 amended: when no step before the identifier extraction raises and the
post-creation URL yields no identifier, the workflow does not stop early: it
proceeds through the capability, permission, link and credential phases with
an empty identifier and reports `success = true` with an empty error
message. -/
theorem c2_amended_extraction_failure_not_fatal
    (env : WorkflowEnv) (account : AccountRow) (image_path : String)
    (henv : env.creationError = none)
    (hid : extract_basic_id env.pageUrl = "") :
    (create_account env account image_path).1.success = true ∧
    (create_account env account image_path).1.basic_id = "" ∧
    (create_account env account image_path).1.error_message = "" ∧
    Phase.capabilityEnabling ∈ (create_account env account image_path).2 ∧
    Phase.permissionGranting ∈ (create_account env account image_path).2 ∧
    Phase.linkObtaining ∈ (create_account env account image_path).2 ∧
    Phase.credentialExtracting ∈ (create_account env account image_path).2 := by
  simp [create_account, henv, hid]

/-- C2 amended, witness at a concrete environment. -/
theorem c2_amended_witness :
    (create_account
        { creationError := none, pageUrl := "https://manager.line.biz/account/settings",
          permissionLink := "", friendLink := "", accessToken := "" }
        (sampleAccount 4) "icon.png").1.success = true ∧
    (create_account
        { creationError := none, pageUrl := "https://manager.line.biz/account/settings",
          permissionLink := "", friendLink := "", accessToken := "" }
        (sampleAccount 4) "icon.png").1.basic_id = "" ∧
    (create_account
        { creationError := none, pageUrl := "https://manager.line.biz/account/settings",
          permissionLink := "", friendLink := "", accessToken := "" }
        (sampleAccount 4) "icon.png").1.error_message = "" ∧
    Phase.capabilityEnabling ∈
      (create_account
        { creationError := none, pageUrl := "https://manager.line.biz/account/settings",
          permissionLink := "", friendLink := "", accessToken := "" }
        (sampleAccount 4) "icon.png").2 ∧
    Phase.permissionGranting ∈
      (create_account
        { creationError := none, pageUrl := "https://manager.line.biz/account/settings",
          permissionLink := "", friendLink := "", accessToken := "" }
        (sampleAccount 4) "icon.png").2 ∧
    Phase.linkObtaining ∈
      (create_account
        { creationError := none, pageUrl := "https://manager.line.biz/account/settings",
          permissionLink := "", friendLink := "", accessToken := "" }
        (sampleAccount 4) "icon.png").2 ∧
    Phase.credentialExtracting ∈
      (create_account
        { creationError := none, pageUrl := "https://manager.line.biz/account/settings",
          permissionLink := "", friendLink := "", accessToken := "" }
        (sampleAccount 4) "icon.png").2 :=
  c2_amended_extraction_failure_not_fatal _ _ _ rfl (by decide)

/-- C3 counterexample: the empty column letter decodes to the no-mapping
value `-1` exactly like the `"-"` sentinel, yet the write-back guard of
`process_account` only suppresses the literal `"-"`, so a cell write is
issued to a column that decoded to "no mapping". -/
theorem c3_counterexample_empty_column_written :
    _col_letter_to_index "" = -1 ∧
    ({ row := 5, col := "", value := "@abc" } : CellUpdate) ∈
      writeBackUpdates "user" 5
        { row_number := 5, success := true, basic_id := "@abc" }
        { col_enabled := "", col_line_name := "", col_icon_image := "",
          col_basic_id := "", col_access_token := "", col_permission_link := "",
          col_friend_link := "", col_business_account := "-" } := by
  decide

/-- C3 amended: the column-letter decoder maps `"A"`, `"Z"`, `"AA"`, `"AZ"`
to 0, 25, 26, 51 (case-insensitively), and both the sentinel `"-"` and the
empty string to the no-mapping value `-1`; no cell write is ever issued to a
column mapped to the sentinel `"-"` (the empty string, although it also
decodes to no-mapping, is not suppressed by the write guard — see the
counterexample). -/
theorem c3_amended_column_decode_and_sentinel_guard :
    (_col_letter_to_index "A" = 0 ∧ _col_letter_to_index "Z" = 25 ∧
     _col_letter_to_index "AA" = 26 ∧ _col_letter_to_index "AZ" = 51 ∧
     _col_letter_to_index "a" = 0 ∧ _col_letter_to_index "az" = 51 ∧
     _col_letter_to_index "-" = -1 ∧ _col_letter_to_index "" = -1) ∧
    ∀ (email : String) (row : Nat) (res : AutomationResult) (cc : ColumnConfig)
      (u : CellUpdate), u ∈ writeBackUpdates email row res cc → u.col ≠ "-" := by
  refine ⟨by decide, ?_⟩
  intro email row res cc u hu
  unfold writeBackUpdates at hu
  by_cases hs : res.success = true
  · rw [if_pos hs] at hu
    simp only [List.mem_append] at hu
    rcases hu with (((h | h) | h) | h) | h
    · obtain ⟨⟨_, hc⟩, he⟩ := mem_ite_singleton h
      rw [he]; exact hc
    · obtain ⟨⟨_, hc⟩, he⟩ := mem_ite_singleton h
      rw [he]; exact hc
    · obtain ⟨⟨_, hc⟩, he⟩ := mem_ite_singleton h
      rw [he]; exact hc
    · obtain ⟨⟨_, hc⟩, he⟩ := mem_ite_singleton h
      rw [he]; exact hc
    · obtain ⟨hc, he⟩ := mem_ite_singleton h
      rw [he]; exact hc
  · rw [if_neg hs] at hu
    simp at hu

/-- C3 amended, witness: the guard conclusion at one concrete issued
update. -/
theorem c3_amended_witness :
    ({ row := 5, col := "A", value := "@abc" } : CellUpdate).col ≠ "-" :=
  c3_amended_column_decode_and_sentinel_guard.2 "user" 5
    { row_number := 5, success := true, basic_id := "@abc" }
    { col_enabled := "", col_line_name := "", col_icon_image := "",
      col_basic_id := "A", col_access_token := "-", col_permission_link := "-",
      col_friend_link := "-", col_business_account := "-" }
    { row := 5, col := "A", value := "@abc" } (by decide)

/-- C10: the write-back guard compares the configured column only against the
literal `"-"`; an empty-string mapping (the `RunnerConfig` default for every
column field) counts as configured, so a successful record with a non-empty
identifier gets an `update_cell` call with an empty column letter, even
though the read side `_col_letter_to_index` decodes `""` and `"-"` to the
same no-mapping value `-1`. -/
theorem c10_empty_column_guard_mismatch :
    (∀ (email : String) (row : Nat) (res : AutomationResult) (cc : ColumnConfig),
      res.success = true → res.basic_id ≠ "" → cc.col_basic_id = "" →
      ({ row := row, col := "", value := res.basic_id } : CellUpdate) ∈
        writeBackUpdates email row res cc) ∧
    _col_letter_to_index "" = -1 ∧ _col_letter_to_index "-" = -1 ∧
    ∀ e p su sn ip,
      (get_column_config
        { email := e, password := p, sheet_url := su, sheet_name := sn,
          icon_save_path := ip }).col_basic_id = "" := by
  refine ⟨?_, by decide, by decide, fun _ _ _ _ _ => rfl⟩
  intro email row res cc hs hid hcc
  unfold writeBackUpdates
  rw [if_pos hs, hcc]
  apply List.mem_append_left
  apply List.mem_append_left
  apply List.mem_append_left
  apply List.mem_append_left
  rw [if_pos ⟨hid, by decide⟩]
  exact List.mem_singleton_self _

/-- C10, witness at a concrete record, result and configuration. -/
theorem c10_witness :
    ({ row := 7, col := "", value := "@xy12" } : CellUpdate) ∈
      writeBackUpdates "mail" 7
        { row_number := 7, success := true, basic_id := "@xy12" }
        (get_column_config
          { email := "mail", password := "pw", sheet_url := "u",
            sheet_name := "s", icon_save_path := "p" }) :=
  c10_empty_column_guard_mismatch.1 "mail" 7
    { row_number := 7, success := true, basic_id := "@xy12" }
    (get_column_config
      { email := "mail", password := "pw", sheet_url := "u",
        sheet_name := "s", icon_save_path := "p" })
    rfl (by decide) rfl

/-- C5: the supervisor's record loop appends exactly one result per record it
processes: under every control schedule the returned list is the image of a
prefix of the eligible records under the per-record workflow, in input
order — no record yields zero or two results, and result `i` is the
workflow's result for record `i`. -/
theorem c5_one_result_per_processed_record
    (proc : AccountRow → AutomationResult) (sched : Nat → Bool × Bool)
    (fuel : Nat) (records : List AccountRow) (t : Nat) :
    ∃ k, k ≤ records.length ∧
      runLoop proc sched fuel records t = (records.take k).map proc := by
  induction records generalizing t with
  | nil => exact ⟨0, Nat.le_refl 0, rfl⟩
  | cons account rest ih =>
    by_cases hstop : (sched t).1 = true
    · exact ⟨0, Nat.zero_le _, by simp [runLoop, hstop]⟩
    · cases hp : pauseWait sched fuel (t + 1) with
      | none => exact ⟨0, Nat.zero_le _, by simp [runLoop, hstop, hp]⟩
      | some t' =>
        obtain ⟨k, hk, he⟩ := ih t'
        exact ⟨k + 1, by simpa using Nat.succ_le_succ hk,
          by simp [runLoop, hstop, hp, he]⟩

/-- C6: if a session artifact exists and loads but the restore lands on a URL
that is not the authenticated manager surface, the artifact is cleared
exactly once and exactly one interactive credential login is attempted,
whose outcome (including the fresh save on success only) decides `login()`;
if the restore lands on the manager surface, login succeeds with no
interactive attempt and no re-save. -/
theorem c6_session_restore_fallback :
    (∀ env : LoginEnv, env.hasSession = true → env.loadOk = true →
      env.restoreExc = false → onManagerSurface env.restoreUrl = false →
      (login env).clears = 1 ∧ (login env).interactiveAttempts = 1 ∧
      (login env).success = env.credOk ∧
      (login env).saves = (if env.credOk then 1 else 0)) ∧
    ∀ env : LoginEnv, env.hasSession = true → env.loadOk = true →
      env.restoreExc = false → onManagerSurface env.restoreUrl = true →
      (login env).success = true ∧ (login env).interactiveAttempts = 0 ∧
      (login env).saves = 0 := by
  constructor
  · intro env h1 h2 h3 h4
    simp [login, try_restore_session, h1, h2, h3, h4]
  · intro env h1 h2 h3 h4
    simp [login, try_restore_session, h1, h2, h3, h4]

/-- C6, witness: one failed restore (login URL) and one successful restore
(manager URL), at concrete environments. -/
theorem c6_witness :
    (onManagerSurface "https://account.line.biz/login" = false ∧
      (login { hasSession := true, loadOk := true, restoreExc := false,
               restoreUrl := "https://account.line.biz/login",
               credOk := false }).clears = 1 ∧
      (login { hasSession := true, loadOk := true, restoreExc := false,
               restoreUrl := "https://account.line.biz/login",
               credOk := false }).interactiveAttempts = 1 ∧
      (login { hasSession := true, loadOk := true, restoreExc := false,
               restoreUrl := "https://account.line.biz/login",
               credOk := false }).success = false ∧
      (login { hasSession := true, loadOk := true, restoreExc := false,
               restoreUrl := "https://account.line.biz/login",
               credOk := false }).saves = (if False then 1 else 0)) ∧
    onManagerSurface "https://manager.line.biz/home" = true ∧
    (login { hasSession := true, loadOk := true, restoreExc := false,
             restoreUrl := "https://manager.line.biz/home",
             credOk := true }).success = true ∧
    (login { hasSession := true, loadOk := true, restoreExc := false,
             restoreUrl := "https://manager.line.biz/home",
             credOk := true }).interactiveAttempts = 0 ∧
    (login { hasSession := true, loadOk := true, restoreExc := false,
             restoreUrl := "https://manager.line.biz/home",
             credOk := true }).saves = 0 := by
  refine ⟨⟨by decide, ?_⟩, by decide, ?_⟩
  · have h := c6_session_restore_fallback.1
      { hasSession := true, loadOk := true, restoreExc := false,
        restoreUrl := "https://account.line.biz/login", credOk := false }
      rfl rfl rfl (by decide)
    exact ⟨h.1, h.2.1, h.2.2.1, by simpa using h.2.2.2⟩
  · exact c6_session_restore_fallback.2
      { hasSession := true, loadOk := true, restoreExc := false,
        restoreUrl := "https://manager.line.biz/home", credOk := true }
      rfl rfl rfl (by decide)

/-- C7: a record whose creation phase succeeds (identifier extracted) but
whose credential extraction fails (empty token) yields `success = true` with
the permission-link and friend-link slots populated and the token slot
empty, and `process_account` issues exactly one cell update per populated
slot whose column is configured (plus the unconditional owning-account
write), and none for the empty token slot. -/
theorem c7_credential_failure_writeback
    (env : WorkflowEnv) (account : AccountRow) (image_path : String)
    (cc : ColumnConfig) (email : String)
    (henv : env.creationError = none)
    (hid : extract_basic_id env.pageUrl ≠ "")
    (hperm : env.permissionLink ≠ "") (hfriend : env.friendLink ≠ "")
    (htok : env.accessToken = "")
    (hcb : cc.col_basic_id ≠ "-") (hcp : cc.col_permission_link ≠ "-")
    (hcf : cc.col_friend_link ≠ "-") :
    ((process_account env account image_path cc email).1.success = true ∧
     (process_account env account image_path cc email).1.permission_link
       = env.permissionLink ∧
     (process_account env account image_path cc email).1.friend_link
       = env.friendLink ∧
     (process_account env account image_path cc email).1.access_token = "") ∧
    (process_account env account image_path cc email).2 =
      [{ row := account.row_number, col := cc.col_basic_id,
         value := extract_basic_id env.pageUrl },
       { row := account.row_number, col := cc.col_permission_link,
         value := env.permissionLink },
       { row := account.row_number, col := cc.col_friend_link,
         value := env.friendLink }]
      ++ (if cc.col_business_account ≠ "-" then
            [{ row := account.row_number, col := cc.col_business_account,
               value := email }] else []) := by
  unfold process_account create_account writeBackUpdates
  rw [henv]
  simp [hid, hperm, hfriend, htok, hcb, hcp, hcf]

/-- C7, witness at a concrete environment and configuration. -/
theorem c7_witness :
    ((process_account
        { creationError := none,
          pageUrl := "https://manager.line.biz/account/@ab12cd/settings",
          permissionLink := "PERM-LINK", friendLink := "FRIEND-LINK",
          accessToken := "" }
        (sampleAccount 9) "icon.png"
        { col_enabled := "A", col_line_name := "B", col_icon_image := "C",
          col_basic_id := "D", col_access_token := "E",
          col_permission_link := "F", col_friend_link := "G",
          col_business_account := "H" }
        "mail@example.com").1.success = true ∧
     (process_account
        { creationError := none,
          pageUrl := "https://manager.line.biz/account/@ab12cd/settings",
          permissionLink := "PERM-LINK", friendLink := "FRIEND-LINK",
          accessToken := "" }
        (sampleAccount 9) "icon.png"
        { col_enabled := "A", col_line_name := "B", col_icon_image := "C",
          col_basic_id := "D", col_access_token := "E",
          col_permission_link := "F", col_friend_link := "G",
          col_business_account := "H" }
        "mail@example.com").1.permission_link = "PERM-LINK" ∧
     (process_account
        { creationError := none,
          pageUrl := "https://manager.line.biz/account/@ab12cd/settings",
          permissionLink := "PERM-LINK", friendLink := "FRIEND-LINK",
          accessToken := "" }
        (sampleAccount 9) "icon.png"
        { col_enabled := "A", col_line_name := "B", col_icon_image := "C",
          col_basic_id := "D", col_access_token := "E",
          col_permission_link := "F", col_friend_link := "G",
          col_business_account := "H" }
        "mail@example.com").1.friend_link = "FRIEND-LINK" ∧
     (process_account
        { creationError := none,
          pageUrl := "https://manager.line.biz/account/@ab12cd/settings",
          permissionLink := "PERM-LINK", friendLink := "FRIEND-LINK",
          accessToken := "" }
        (sampleAccount 9) "icon.png"
        { col_enabled := "A", col_line_name := "B", col_icon_image := "C",
          col_basic_id := "D", col_access_token := "E",
          col_permission_link := "F", col_friend_link := "G",
          col_business_account := "H" }
        "mail@example.com").1.access_token = "") ∧
    (process_account
        { creationError := none,
          pageUrl := "https://manager.line.biz/account/@ab12cd/settings",
          permissionLink := "PERM-LINK", friendLink := "FRIEND-LINK",
          accessToken := "" }
        (sampleAccount 9) "icon.png"
        { col_enabled := "A", col_line_name := "B", col_icon_image := "C",
          col_basic_id := "D", col_access_token := "E",
          col_permission_link := "F", col_friend_link := "G",
          col_business_account := "H" }
        "mail@example.com").2 =
      [{ row := 9, col := "D", value := "@ab12cd" },
       { row := 9, col := "F", value := "PERM-LINK" },
       { row := 9, col := "G", value := "FRIEND-LINK" },
       { row := 9, col := "H", value := "mail@example.com" }] := by
  have h := c7_credential_failure_writeback
    { creationError := none,
      pageUrl := "https://manager.line.biz/account/@ab12cd/settings",
      permissionLink := "PERM-LINK", friendLink := "FRIEND-LINK",
      accessToken := "" }
    (sampleAccount 9) "icon.png"
    { col_enabled := "A", col_line_name := "B", col_icon_image := "C",
      col_basic_id := "D", col_access_token := "E",
      col_permission_link := "F", col_friend_link := "G",
      col_business_account := "H" }
    "mail@example.com"
    rfl (by decide) (by decide) (by decide) rfl
    (by decide) (by decide) (by decide)
  refine ⟨h.1, ?_⟩
  rw [h.2]
  decide

theorem enabledLoopAux_eq_filter_take (cc : ColumnConfig) :
    ∀ (rows : List (List String)) (n count : Nat),
      enabledLoopAux cc rows n count =
        (((List.enumFrom n rows).filter (fun p => rowIsEnabled cc p.2)).map
          (fun p => mkAccountRow cc p.1 p.2)).take (MAX_ACCOUNTS - count) := by
  intro rows
  induction rows with
  | nil => intro n count; simp [enabledLoopAux, List.enumFrom]
  | cons row rest ih =>
    intro n count
    rw [enabledLoopAux]
    by_cases hm : MAX_ACCOUNTS ≤ count
    · rw [if_pos hm, Nat.sub_eq_zero_of_le hm, List.take_zero]
    · rw [if_neg hm]
      have hstep : MAX_ACCOUNTS - count = (MAX_ACCOUNTS - (count + 1)) + 1 := by
        omega
      by_cases he : rowIsEnabled cc row = true
      · rw [if_pos he, ih (n + 1) (count + 1)]
        simp [List.enumFrom, List.filter_cons, he, hstep]
      · rw [if_neg he, ih (n + 1) count]
        simp [List.enumFrom, List.filter_cons, he]

/-- C4: for every sheet contents, `get_enabled_rows` returns exactly the
data rows after the `HEADER_ROWS = 2` header rows whose enabled cell,
stripped and uppercased, is one of the `ENABLED_VALUES` allow-list tokens
(rows whose enabled column is unmapped or out of range are excluded by
`rowIsEnabled`), in original sheet order, truncated to the first
`MAX_ACCOUNTS = 100` such rows. -/
theorem c4_get_enabled_rows_filter_take :
    (HEADER_ROWS = 2 ∧ MAX_ACCOUNTS = 100 ∧
      ENABLED_VALUES = ["TRUE", "1", "はい", "YES", "有効"]) ∧
    ∀ (cc : ColumnConfig) (all_values : List (List String)),
      get_enabled_rows cc all_values =
        (((List.enumFrom (HEADER_ROWS + 1) (all_values.drop HEADER_ROWS)).filter
          (fun p => rowIsEnabled cc p.2)).map
            (fun p => mkAccountRow cc p.1 p.2)).take MAX_ACCOUNTS := by
  refine ⟨⟨rfl, rfl, rfl⟩, ?_⟩
  intro cc all_values
  unfold get_enabled_rows
  by_cases h : all_values.length < HEADER_ROWS + 1
  · rw [if_pos h]
    have hd : all_values.drop HEADER_ROWS = [] :=
      List.drop_eq_nil_of_le (by omega)
    simp [hd, List.enumFrom]
  · rw [if_neg h, enabledLoopAux_eq_filter_take, Nat.sub_zero]

theorem head?_dropWhile_not {p : Char → Bool} :
    ∀ (l : List Char) (c : Char), (l.dropWhile p).head? = some c → p c = false := by
  intro l
  induction l with
  | nil => intro c h; simp [List.dropWhile] at h
  | cons a l ih =>
    intro c h
    by_cases hp : p a = true
    · rw [List.dropWhile_cons_of_pos hp] at h
      exact ih c h
    · rw [List.dropWhile_cons_of_neg hp] at h
      simp only [List.head?_cons, Option.some.injEq] at h
      rw [← h]
      exact Bool.eq_false_iff.mpr hp

theorem pyStripRight_getLast_not_space (cs : List Char) (c : Char)
    (h : (pyStripRight cs).getLast? = some c) : isSpaceChar c = false := by
  rw [pyStripRight, List.getLast?_reverse] at h
  exact head?_dropWhile_not _ c h

theorem pyStrip_getLast_not_space (cs : List Char) (c : Char)
    (h : (pyStrip cs).getLast? = some c) : isSpaceChar c = false :=
  pyStripRight_getLast_not_space _ c (by rwa [pyStrip] at h)

theorem stripTokenText_getLast_not_space (raw : List Char) (c : Char)
    (h : (stripTokenText raw).getLast? = some c) : isSpaceChar c = false := by
  simp only [stripTokenText] at h
  split at h
  · exact pyStrip_getLast_not_space _ c h
  · split at h
    · exact pyStrip_getLast_not_space _ c h
    · exact pyStrip_getLast_not_space _ c h

theorem reMatchTokenFull_eq_all (cs : List Char)
    (h : ¬cs.getLast? = some '\n') :
    reMatchTokenFull cs = (!cs.isEmpty && cs.all isTokenChar) := by
  simp only [reMatchTokenFull, if_neg h]

theorem acceptsToken_eq_specTokenCheck (raw : List Char) :
    acceptsToken raw = specTokenCheck (stripTokenText raw) := by
  simp only [acceptsToken, specTokenCheck]
  by_cases h : 100 < (stripTokenText raw).length
  · have hne : (stripTokenText raw).isEmpty = false := by
      cases h' : stripTokenText raw with
      | nil => rw [h'] at h; simp at h
      | cons c cs => rfl
    have hlast : ¬(stripTokenText raw).getLast? = some '\n' := by
      intro hl
      have hsp := stripTokenText_getLast_not_space raw '\n' hl
      simp [isSpaceChar] at hsp
    rw [reMatchTokenFull_eq_all _ hlast, hne]
    simp
  · simp [h]

theorem findTokenText_eq_find (texts : List (List Char)) :
    findTokenText texts = (texts.find? acceptsToken).map stripTokenText := by
  induction texts with
  | nil => rfl
  | cons raw rest ih =>
    simp only [findTokenText]
    by_cases h : acceptsToken raw = true
    · have h' := h
      simp only [acceptsToken] at h'
      rw [if_pos h', List.find?_cons_of_pos _ h]
      rfl
    · have h' := h
      simp only [acceptsToken] at h'
      rw [if_neg h', List.find?_cons_of_neg _ (by simpa using h), ih]

theorem get_access_token_scan_eq (texts : List (List Char)) (fb : Option (List Char)) :
    get_access_token_scan texts fb =
      match texts.find? acceptsToken with
      | some raw => pyStrip (stripTokenText raw)
      | none => fallbackToken fb := by
  simp only [get_access_token_scan]
  cases hf : texts.find? acceptsToken with
  | some raw =>
    have hft : findTokenText texts = some (stripTokenText raw) := by
      rw [findTokenText_eq_find, hf]; rfl
    rw [hft]
    have hacc : acceptsToken raw = true := List.find?_some hf
    have hlen : 100 < (stripTokenText raw).length := by
      simp only [acceptsToken, Bool.and_eq_true, decide_eq_true_eq] at hacc
      exact hacc.1.1
    have hne : (stripTokenText raw).isEmpty = false := by
      cases h' : stripTokenText raw with
      | nil => rw [h'] at hlen; simp at hlen
      | cons c cs => rfl
    simp [hne]
  | none =>
    have hft : findTokenText texts = none := by
      rw [findTokenText_eq_find, hf]; rfl
    rw [hft]
    cases fb with
    | none => simp [fallbackToken]
    | some a => simp only [fallbackToken]

/-- C8: the credential text scan accepts a node exactly when, after
stripping one trailing `Reissue`/`再発行` label and surrounding whitespace,
the remaining text is longer than 100 characters, contains no space, and
consists only of `a-z`, `A-Z`, `0-9`, `+`, `/`, `=` (`specTokenCheck`); the
first such node in document scan order wins, and the attribute fallback is
consulted exactly when no node matches. -/
theorem c8_token_scan_shape :
    (∀ raw : List Char, acceptsToken raw = specTokenCheck (stripTokenText raw)) ∧
    (∀ texts : List (List Char),
      findTokenText texts = (texts.find? acceptsToken).map stripTokenText) ∧
    ∀ (texts : List (List Char)) (fb : Option (List Char)),
      get_access_token_scan texts fb =
        match texts.find? acceptsToken with
        | some raw => pyStrip (stripTokenText raw)
        | none => fallbackToken fb :=
  ⟨acceptsToken_eq_specTokenCheck, findTokenText_eq_find, get_access_token_scan_eq⟩

theorem pollWait_eventFrom (s : Nat) :
    ∀ (fuel t0 : Nat), max t0 s < t0 + fuel →
      pollWait (eventFrom s) fuel t0 = some (max t0 s) := by
  intro fuel
  induction fuel with
  | zero =>
    intro t0 h
    exact absurd h (by simp [Nat.le_max_left])
  | succ fuel ih =>
    intro t0 h
    by_cases hs : s ≤ t0
    · have : eventFrom s t0 = true := by simp [eventFrom, hs]
      rw [pollWait, this]
      simp [Nat.max_eq_left hs]
    · have hlt : t0 < s := Nat.lt_of_not_le hs
      have hev : eventFrom s t0 = false := by simp [eventFrom]; omega
      rw [pollWait, hev]
      have h1 : max (t0 + 1) s = s := Nat.max_eq_right hlt
      have h0 : max t0 s = s := Nat.max_eq_right (Nat.le_of_lt hlt)
      rw [ih (t0 + 1) (by omega), h1, h0]
      simp

/-- C9: the challenge-resolution signal is single-use.  (a) A wait polling
every interval unblocks at the first poll at or after the tick the signal is
set — within one poll interval of the signal.  (b) `captcha_callback` clears
the event after consuming it.  (c) Because of the clear, a re-detection
starts a fresh wait that unblocks only at the new signal tick, whereas a
still-set (uncleared) signal would let the wait pass through immediately at
its first poll. -/
theorem c9_challenge_gate :
    (∀ (s t0 fuel : Nat), max t0 s < t0 + fuel →
      pollWait (eventFrom s) fuel t0 = some (max t0 s)) ∧
    (∀ (flag : Nat → Bool) (fuel t0 u : Nat) (b : Bool),
      captcha_callback flag fuel t0 = some (u, b) → b = false) ∧
    ∀ (s2 t1 fuel : Nat), t1 ≤ s2 → s2 < t1 + fuel →
      pollWait (eventFrom s2) fuel t1 = some s2 ∧
      pollWait (fun _ => true) fuel t1 = some t1 := by
  refine ⟨fun s t0 fuel h => pollWait_eventFrom s fuel t0 h, ?_, ?_⟩
  · intro flag fuel t0 u b h
    unfold captcha_callback at h
    cases hp : pollWait flag fuel t0 with
    | none => rw [hp] at h; simp at h
    | some w => rw [hp] at h; simp at h; exact h.2
  · intro s2 t1 fuel h1 h2
    constructor
    · have hmax : max t1 s2 = s2 := Nat.max_eq_right h1
      have := pollWait_eventFrom s2 fuel t1 (by rw [hmax]; omega)
      rwa [hmax] at this
    · cases fuel with
      | zero => omega
      | succ fuel => simp [pollWait]

/-- C9, witness: a wait started at tick 2 with the signal set at tick 4
unblocks at tick 4; the callback returns the event cleared; a fresh wait at
tick 5 for a signal at tick 9 unblocks only at tick 9, while an uncleared
flag would pass through at tick 5 immediately. -/
theorem c9_witness :
    pollWait (eventFrom 4) 10 2 = some (max 2 4) ∧
    (false : Bool) = false ∧
    pollWait (eventFrom 9) 10 5 = some 9 ∧
    pollWait (fun _ => true) 10 5 = some 5 := by
  refine ⟨c9_challenge_gate.1 4 2 10 (by decide), ?_, ?_, ?_⟩
  · exact c9_challenge_gate.2.1 (eventFrom 4) 10 2 4 false (by decide)
  · exact (c9_challenge_gate.2.2 9 5 10 (by decide) (by decide)).1
  · exact (c9_challenge_gate.2.2 9 5 10 (by decide) (by decide)).2
